import Mathlib

/-!
Shallow embedding of the authenticated request layer of the Google Sheets
MCP server (`src/main.py`): Nango credential fetching, the single-slot
access-token cache, the request executor with its one 401
refresh-and-retry cycle, the HTTP-status error taxonomy, and the local
argument validation of the operation wrappers.

External effects (environment variables, the broker HTTP call, the target
API HTTP calls) are modelled as explicit inputs: an `Env` record of the
four configuration variables and a `World` of oracles giving the outcome
of each successive credential fetch and each successive HTTP request.
The mutable module-level token cache `_cached_access_token` is threaded
as explicit state (`Option PyVal`, `none` standing for Python `None`).
-/

set_option autoImplicit false

namespace GSheets

/-- Model of a Python object as it appears in JSON payloads: `None`,
booleans, numbers (integral part only; no claim depends on floats),
strings, lists and dicts with string keys. -/
inductive PyVal where
  | null
  | bool (b : Bool)
  | num (n : Int)
  | str (s : String)
  | arr (xs : List PyVal)
  | obj (fields : List (String × PyVal))

/-- Python dict lookup `d[k]` / `d.get(k)` on a field list: first binding
for the key, if any. -/
def lookupField (fs : List (String × PyVal)) (k : String) : Option PyVal :=
  (fs.find? (fun p => p.1 == k)).map (fun p => p.2)

/-- Python truthiness of a value (`bool(v)`): `None`, `False`, `0`, `""`,
empty list and empty dict are falsy. -/
def PyVal.truthy : PyVal → Bool
  | .null => false
  | .bool b => b
  | .num n => n != 0
  | .str s => s != ""
  | .arr xs => !xs.isEmpty
  | .obj fs => !fs.isEmpty

/-- Python `str(v)` as used in f-string interpolation. Exact only for the
scalar cases; the rendering of lists and dicts is abbreviated (no claim
depends on interpolating an aggregate). -/
def pyStr : PyVal → String
  | .null => "None"
  | .bool true => "True"
  | .bool false => "False"
  | .num n => toString n
  | .str s => s
  | .arr _ => "<list>"
  | .obj _ => "<dict>"

/-- Kind of a raised `GoogleSheetsAPIError`: the base class or one of its
five subclasses defined at the top of `main.py`. -/
inductive ErrKind where
  | apiError
  | authentication
  | authorization
  | resourceNotFound
  | quotaExceeded
  | validation
deriving DecidableEq

/-- A raised `GoogleSheetsAPIError`: kind (= dynamic class), message, and
the optional `status_code` / `response_data` constructor arguments. -/
structure APIError where
  kind : ErrKind
  message : String
  status_code : Option Nat
  response_data : Option PyVal

/-- A raised Python exception escaping a function of the module: either a
`GoogleSheetsAPIError` (family) or a raw interpreter exception
(`TypeError` from `**`-unpacking a non-mapping, `AttributeError` from
calling `.get` on a non-dict). -/
inductive PyErr where
  | api (e : APIError)
  | typeError (msg : String)
  | attributeError (msg : String)

/-- An HTTP response as seen through the `requests` library: status code,
body text, and the result of `response.json()` (`none` when the body does
not parse as JSON). `response.content` is truthy exactly when the text is
non-empty. -/
structure HttpResponse where
  status : Nat
  text : String
  json : Option PyVal

/-- Outcome of one `requests.request` / `requests.get` call: a response,
or one of the transport-level exceptions the code catches. -/
inductive ReqOutcome where
  | resp (r : HttpResponse)
  | timeout
  | connectionError
  | requestException (s : String)

/-- The four environment variables read by `get_connection_credentials`;
`none` models an unset variable. -/
structure Env where
  nango_connection_id : Option String
  nango_integration_id : Option String
  nango_base_url : Option String
  nango_secret_key : Option String

/-- Truthiness of `os.environ.get(var)`: falsy when unset or empty. -/
def envTruthy : Option String → Bool
  | none => false
  | some s => s != ""

/-- The list comprehension `[var for var in required_vars if not
os.environ.get(var)]` in `get_connection_credentials`. -/
def missing_vars (env : Env) : List String :=
  (List.filter (fun p => !envTruthy p.2)
    [("NANGO_CONNECTION_ID", env.nango_connection_id),
     ("NANGO_INTEGRATION_ID", env.nango_integration_id),
     ("NANGO_BASE_URL", env.nango_base_url),
     ("NANGO_SECRET_KEY", env.nango_secret_key)]).map (fun p => p.1)

/-- Result of `get_connection_credentials`: the returned JSON body or the
raised error, together with the number of broker HTTP calls issued. -/
structure FetchResult where
  result : Except APIError PyVal
  networkCalls : Nat

/-- Shorthand for the `AuthenticationError`s raised with a message only. -/
def authErr (msg : String) : APIError :=
  { kind := .authentication, message := msg, status_code := none, response_data := none }

/-- Embedding of `get_connection_credentials` (main.py lines 64-101).
`broker` is the outcome the single `requests.get` to Nango would have;
`response.raise_for_status()` raises `HTTPError` exactly for statuses in
[400, 600). A success body that fails to parse as JSON falls to the
generic `except Exception` clause (the embedded exception text is not
modelled precisely; no claim depends on it). -/
def get_connection_credentials (env : Env) (broker : ReqOutcome) : FetchResult :=
  let missing := missing_vars env
  if missing.isEmpty then
    match broker with
    | .resp r =>
      if 400 ≤ r.status ∧ r.status < 600 then
        if r.status = 401 then
          ⟨.error (authErr "Invalid Nango secret key"), 1⟩
        else if r.status = 404 then
          ⟨.error (authErr "Nango connection not found"), 1⟩
        else
          ⟨.error (authErr ("Nango API error: " ++ toString r.status ++ " - " ++ r.text)), 1⟩
      else
        match r.json with
        | some j => ⟨.ok j, 1⟩
        | none => ⟨.error (authErr "Unexpected error getting Nango credentials: invalid JSON body"), 1⟩
    | .timeout => ⟨.error (authErr "Timeout while connecting to Nango authentication service"), 1⟩
    | .connectionError => ⟨.error (authErr "Failed to connect to Nango authentication service"), 1⟩
    | .requestException s =>
      ⟨.error (authErr ("Unexpected error getting Nango credentials: " ++ s)), 1⟩
  else
    ⟨.error (authErr ("Missing required environment variables: " ++ String.intercalate ", " missing)), 0⟩

/-- The token extraction `credentials.get("credentials", {}).get("access_token")`
in `get_access_token`. A `.get` on a non-dict raises `AttributeError`.
An absent `access_token` key yields Python `None` (`Option.none`), and so
does a key present with a JSON null value: `.get` returns the stored
`None` itself, indistinguishable from the absent-key default. -/
def tokenFieldLookup (body : PyVal) : Except PyErr (Option PyVal) :=
  match body with
  | .obj fs =>
    match (lookupField fs "credentials").getD (.obj []) with
    | .obj cfs =>
      match lookupField cfs "access_token" with
      | some .null => .ok none
      | v => .ok v
    | _ => .error (.attributeError "object has no attribute get")
  | _ => .error (.attributeError "object has no attribute get")

/-- Result of one `get_access_token` call: the returned token or raised
exception, the new value of `_cached_access_token`, and the number of
`get_connection_credentials` invocations (0 on a cache hit, 1 otherwise). -/
structure TokenResult where
  result : Except PyErr PyVal
  cache : Option PyVal
  providerCalls : Nat

/-- Embedding of `get_access_token` (main.py lines 103-114). `cache` is
the current `_cached_access_token`; `fetch` is the outcome
`get_connection_credentials` would produce if invoked. Note that the
assignment `_cached_access_token = ...` happens before the truthiness
check, so a present-but-falsy token is stored even though the call then
raises. -/
def get_access_token (cache : Option PyVal) (fetch : FetchResult) : TokenResult :=
  match cache with
  | some t => ⟨.ok t, some t, 0⟩
  | none =>
    match fetch.result with
    | .error e => ⟨.error (.api e), none, 1⟩
    | .ok body =>
      match tokenFieldLookup body with
      | .error pe => ⟨.error pe, none, 1⟩
      | .ok none => ⟨.error (.api (authErr "No access token found in Nango credentials")), none, 1⟩
      | .ok (some t) =>
        if t.truthy then ⟨.ok t, some t, 1⟩
        else ⟨.error (.api (authErr "No access token found in Nango credentials")), some t, 1⟩

/-- Embedding of `refresh_access_token` (main.py lines 116-120): clear the
cache, then `get_access_token` (which now always consults the provider). -/
def refresh_access_token (fetch : FetchResult) : TokenResult :=
  get_access_token none fetch

/-- Repeated calls to `get_access_token` threading the cache: `f i` is the
outcome of the (i+1)-th `get_connection_credentials` invocation. Returns
the list of per-call results, the final cache, and the total number of
provider invocations. -/
def repeatGetToken (f : Nat → FetchResult) :
    Option PyVal → Nat → Nat → List (Except PyErr PyVal) × Option PyVal × Nat
  | cache, pc, 0 => ([], cache, pc)
  | cache, pc, n + 1 =>
    let tr := get_access_token cache (f pc)
    let rest := repeatGetToken f tr.cache (pc + tr.providerCalls) n
    (tr.result :: rest.1, rest.2)

/-- The `requests` notion of a successful response: `response.ok` is true
iff the status code is below 400 (3xx responses count as ok). -/
def py_response_ok (status : Nat) : Bool := status < 400

/-- The message/payload computation at the top of `_raise_for_status`
(main.py lines 216-220): `error_data = response.json()` then
the chained dict lookups of the error and message keys with
`response.text` as the default, with the
bare `except` falling back to `response.text or "HTTP <code> error"`.
When `.json()` itself failed, `error_data` is not in `locals()` and the
carried payload is `None`; when it succeeded but a `.get` raised
`AttributeError`, the parsed value is still carried. -/
def errorPayload (r : HttpResponse) : String × Option PyVal :=
  let fallback := if r.text = "" then "HTTP " ++ toString r.status ++ " error" else r.text
  match r.json with
  | none => (fallback, none)
  | some j =>
    match j with
    | .obj fs =>
      match (lookupField fs "error").getD (.obj []) with
      | .obj efs =>
        match lookupField efs "message" with
        | some m => (pyStr m, some j)
        | none => (r.text, some j)
      | _ => (fallback, some j)
    | _ => (fallback, some j)

/-- Embedding of `_raise_for_status` (main.py lines 209-235): `none` when
`response.ok`, otherwise the raised `GoogleSheetsAPIError` variant chosen
by the elif chain on the status code. -/
def raise_for_status (r : HttpResponse) : Option APIError :=
  if py_response_ok r.status then none
  else
    let p := errorPayload r
    if r.status = 400 then
      some { kind := .validation, message := "Bad request: " ++ p.1,
             status_code := some r.status, response_data := p.2 }
    else if r.status = 401 then
      some { kind := .authentication, message := "Authentication failed: " ++ p.1,
             status_code := some r.status, response_data := p.2 }
    else if r.status = 403 then
      some { kind := .authorization, message := "Permission denied: " ++ p.1,
             status_code := some r.status, response_data := p.2 }
    else if r.status = 404 then
      some { kind := .resourceNotFound, message := "Resource not found: " ++ p.1,
             status_code := some r.status, response_data := p.2 }
    else if r.status = 429 then
      some { kind := .quotaExceeded, message := "Quota exceeded: " ++ p.1,
             status_code := some r.status, response_data := p.2 }
    else if 500 ≤ r.status ∧ r.status < 600 then
      some { kind := .apiError, message := "Server error: " ++ p.1,
             status_code := some r.status, response_data := p.2 }
    else
      some { kind := .apiError, message := "HTTP " ++ toString r.status ++ ": " ++ p.1,
             status_code := some r.status, response_data := p.2 }

/-- Headers as an insertion-ordered dict of string keys and values. -/
abbrev Headers := List (String × String)

/-- Python dict assignment `headers[k] = v`: replace the binding in place
or append a new one (keys are unique in a dict, so replacing the first
occurrence is faithful). -/
def setHeader : Headers → String → String → Headers
  | [], k, v => [(k, v)]
  | p :: t, k, v => if p.1 = k then (k, v) :: t else p :: setHeader t k v

/-- Header lookup `headers[k]` as an option. -/
def lookupHeader (hs : Headers) (k : String) : Option String :=
  (hs.find? (fun p => p.1 == k)).map (fun p => p.2)

/-- The membership test `"Authorization" in headers`. -/
def hasHeader (hs : Headers) (k : String) : Bool :=
  hs.any (fun p => p.1 == k)

/-- The fixed target API base URL of the module. -/
def BASE_URL : String := "https://sheets.googleapis.com"

/-- The per-call arguments of `make_api_request` that shape the outbound
request: method, endpoint, query parameters and JSON body. -/
structure RequestArgs where
  method : String
  endpoint : String
  params : List (String × PyVal)
  json_data : Option PyVal

/-- One `requests.request` invocation as issued by the executor: the
method, full URL, query parameters, JSON body and headers sent. -/
structure SentRequest where
  method : String
  url : String
  params : List (String × PyVal)
  body : Option PyVal
  headers : Headers

/-- Build the record of one outbound request from the call arguments and
the current headers dict. -/
def mkSent (args : RequestArgs) (hs : Headers) : SentRequest :=
  { method := args.method, url := BASE_URL ++ args.endpoint,
    params := args.params, body := args.json_data, headers := hs }

/-- The oracles supplying the interactions of this process with the outside
world: `fetch i` is the outcome of the (i+1)-th `get_connection_credentials`
invocation, `http i` the outcome of the (i+1)-th HTTP request to the
target API. -/
structure World where
  fetch : Nat → FetchResult
  http : Nat → ReqOutcome

/-- Result of one `make_api_request` call: the returned parsed body
(`none` = Python `None` for an absent response body) or raised exception,
the final token cache, the number of provider invocations, and the
requests issued (in order). -/
structure MApiResult where
  result : Except PyErr (Option PyVal)
  cache : Option PyVal
  providerCalls : Nat
  sent : List SentRequest

/-- The errors raised by the three `except requests.exceptions` clauses of
`make_api_request` (main.py lines 297-302); `none` for an actual response. -/
def transportError : ReqOutcome → Option APIError
  | .timeout =>
    some ⟨.apiError, "Request timeout - Google Sheets API did not respond in time", none, none⟩
  | .connectionError =>
    some ⟨.apiError, "Connection error - Unable to reach Google Sheets API", none, none⟩
  | .requestException s =>
    some ⟨.apiError, "Request failed: " ++ s, none, none⟩
  | .resp _ => none

/-- The success tail of `make_api_request` (main.py lines 284-295): raise
for a non-ok final response, else parse the body — valid JSON as-is, a
non-JSON body wrapped under a `content` key, an empty body as `None`. -/
def finishResponse (r : HttpResponse) : Except PyErr (Option PyVal) :=
  match raise_for_status r with
  | some e => .error (.api e)
  | none =>
    if r.text = "" then .ok none
    else
      match r.json with
      | some j => .ok (some j)
      | none => .ok (some (.obj [("content", .str r.text)]))

/-- The `try` block of `make_api_request` (main.py lines 258-302): issue
the request, on a first 401 with `retry_auth` refresh the token (an
`AuthenticationError` from the refresh propagates — it is not a
`requests` exception), update the `Authorization` header and reissue the
request once, then classify or parse the final response. `pc` is the
number of provider invocations already made by this call. -/
def apiRequestCore (args : RequestArgs) (hs : Headers) (retry_auth : Bool)
    (cache : Option PyVal) (w : World) (pc : Nat) : MApiResult :=
  match w.http 0 with
  | .resp r =>
    if r.status = 401 ∧ retry_auth = true then
      let tr := refresh_access_token (w.fetch pc)
      match tr.result with
      | .error e => ⟨.error e, tr.cache, pc + tr.providerCalls, [mkSent args hs]⟩
      | .ok tok =>
        let hs2 := setHeader hs "Authorization" ("Bearer " ++ pyStr tok)
        match w.http 1 with
        | .resp r2 =>
          ⟨finishResponse r2, tr.cache, pc + tr.providerCalls,
            [mkSent args hs, mkSent args hs2]⟩
        | o =>
          ⟨.error (.api ((transportError o).getD (authErr ""))), tr.cache,
            pc + tr.providerCalls, [mkSent args hs, mkSent args hs2]⟩
    else
      ⟨finishResponse r, cache, pc, [mkSent args hs]⟩
  | o =>
    ⟨.error (.api ((transportError o).getD (authErr ""))), cache, pc, [mkSent args hs]⟩

/-- Embedding of `make_api_request` (main.py lines 238-302). When the
caller supplied no headers (or headers without an `Authorization` entry),
a token is obtained via `get_access_token` — an exception from it
propagates before any request is issued — and the `Authorization` and
`Content-Type` headers are set. -/
def make_api_request (args : RequestArgs) (headers0 : Option Headers)
    (retry_auth : Bool) (cache : Option PyVal) (w : World) : MApiResult :=
  let needAuth : Bool :=
    match headers0 with
    | none => true
    | some hs => hs.isEmpty || !hasHeader hs "Authorization"
  if needAuth then
    let tr := get_access_token cache (w.fetch 0)
    match tr.result with
    | .error e => ⟨.error e, tr.cache, tr.providerCalls, []⟩
    | .ok tok =>
      let hs0 := headers0.getD []
      let hs1 := setHeader (setHeader hs0 "Authorization" ("Bearer " ++ pyStr tok))
        "Content-Type" "application/json"
      apiRequestCore args hs1 retry_auth tr.cache w tr.providerCalls
  else
    apiRequestCore args (headers0.getD []) retry_auth cache w 0

/-- The `**`-unpacking `Model(**response_data)` applied by the wrappers to
the return value of the executor: Python raises `TypeError` when the argument
after `**` is not a mapping (in particular for `None`, a list or a
scalar). Field-level coercion by the model library is not modelled — a
dict is accepted as-is. -/
def kwargsFields : Option PyVal → Except PyErr (List (String × PyVal))
  | some (.obj fs) => .ok fs
  | _ => .error (.typeError "argument after ** must be a mapping")

/-- A constructed response model, keeping the keyword arguments it was
built from. -/
structure ModelObj where
  fields : List (String × PyVal)

/-- Result of an operation wrapper that returns a constructed model. -/
structure OpModelResult where
  result : Except PyErr ModelObj
  cache : Option PyVal
  providerCalls : Nat
  sent : List SentRequest

/-- Result of an operation wrapper that returns the dict from the executor. -/
structure OpDictResult where
  result : Except PyErr (Option PyVal)
  cache : Option PyVal
  providerCalls : Nat
  sent : List SentRequest

/-- Shorthand for the `ValidationError`s the wrappers raise with a
message only. -/
def valErr (msg : String) : PyErr :=
  .api ⟨.validation, msg, none, none⟩

/-- Embedding of `spreadsheets_get` (main.py lines 333-353) with the
optional arguments at their `None` defaults: validate `spreadsheet_id`,
issue the GET through the executor, and build `Spreadsheet(**response_data)`. -/
def spreadsheets_get (spreadsheet_id : String) (cache : Option PyVal) (w : World) :
    OpModelResult :=
  if spreadsheet_id = "" then
    ⟨.error (valErr "spreadsheet_id is required"), cache, 0, []⟩
  else
    let m := make_api_request
      ⟨"GET", "/v4/spreadsheets/" ++ spreadsheet_id, [], none⟩ none true cache w
    match m.result with
    | .error e => ⟨.error e, m.cache, m.providerCalls, m.sent⟩
    | .ok data =>
      match kwargsFields data with
      | .error pe => ⟨.error pe, m.cache, m.providerCalls, m.sent⟩
      | .ok fs => ⟨.ok ⟨fs⟩, m.cache, m.providerCalls, m.sent⟩

/-- Embedding of `values_update` (main.py lines 429-462): the four local
validation checks in source order, then the PUT through the executor,
whose dict is returned unwrapped. -/
def values_update (spreadsheet_id rng : String) (values : List PyVal)
    (value_input_option : String) (major_dimension : Option String)
    (cache : Option PyVal) (w : World) : OpDictResult :=
  if spreadsheet_id = "" then
    ⟨.error (valErr "spreadsheet_id is required"), cache, 0, []⟩
  else if rng = "" then
    ⟨.error (valErr "range is required"), cache, 0, []⟩
  else if values.isEmpty then
    ⟨.error (valErr "values is required"), cache, 0, []⟩
  else if value_input_option ≠ "RAW" ∧ value_input_option ≠ "USER_ENTERED" then
    ⟨.error (valErr "value_input_option must be \x27RAW\x27 or \x27USER_ENTERED\x27"), cache, 0, []⟩
  else
    let body := match major_dimension with
      | none => PyVal.obj [("values", .arr values)]
      | some md => PyVal.obj [("values", .arr values), ("majorDimension", .str md)]
    let m := make_api_request
      ⟨"PUT", "/v4/spreadsheets/" ++ spreadsheet_id ++ "/values/" ++ rng,
        [("valueInputOption", .str value_input_option)], some body⟩ none true cache w
    ⟨m.result, m.cache, m.providerCalls, m.sent⟩

/-- Embedding of `developer_metadata_get` (main.py lines 665-678): the
required-argument checks — note `if not metadata_id` is a truthiness
test, so the integer 0 fails it — then the GET and
`DeveloperMetadata(**response_data)`. -/
def developer_metadata_get (spreadsheet_id : String) (metadata_id : Int)
    (cache : Option PyVal) (w : World) : OpModelResult :=
  if spreadsheet_id = "" then
    ⟨.error (valErr "spreadsheet_id is required"), cache, 0, []⟩
  else if metadata_id = 0 then
    ⟨.error (valErr "metadata_id is required"), cache, 0, []⟩
  else
    let m := make_api_request
      ⟨"GET", "/v4/spreadsheets/" ++ spreadsheet_id ++ "/developerMetadata/" ++ toString metadata_id,
        [], none⟩ none true cache w
    match m.result with
    | .error e => ⟨.error e, m.cache, m.providerCalls, m.sent⟩
    | .ok data =>
      match kwargsFields data with
      | .error pe => ⟨.error pe, m.cache, m.providerCalls, m.sent⟩
      | .ok fs => ⟨.ok ⟨fs⟩, m.cache, m.providerCalls, m.sent⟩

/-- Modelled from the spec (section 7 error taxonomy), for comparison with
`raise_for_status`: the error kind the spec assigns to each status code. -/
def specStatusKind (s : Nat) : ErrKind :=
  if s = 400 then .validation
  else if s = 401 then .authentication
  else if s = 403 then .authorization
  else if s = 404 then .resourceNotFound
  else if s = 429 then .quotaExceeded
  else .apiError

/-- Modelled from the spec (section 4.3 step 4), for comparison with
`errorPayload`: the message is the `error.message` field of the remote
payload when parseable and present, else the raw response text, else the generic
HTTP-code message. -/
def specErrorMessage (r : HttpResponse) : String :=
  let fallback := if r.text = "" then "HTTP " ++ toString r.status ++ " error" else r.text
  match r.json with
  | some (.obj fs) =>
    match lookupField fs "error" with
    | some (.obj efs) =>
      match lookupField efs "message" with
      | some m => pyStr m
      | none => fallback
    | _ => fallback
  | _ => fallback

/-- The kind-specific message head each branch of `_raise_for_status`
prepends before the computed error message. -/
def kindHead (s : Nat) : String :=
  if s = 400 then "Bad request: "
  else if s = 401 then "Authentication failed: "
  else if s = 403 then "Permission denied: "
  else if s = 404 then "Resource not found: "
  else if s = 429 then "Quota exceeded: "
  else if 500 ≤ s ∧ s < 600 then "Server error: "
  else "HTTP " ++ toString s ++ ": "

theorem lookupHeader_setHeader (hs : Headers) (k v : String) :
    lookupHeader (setHeader hs k v) k = some v := by
  induction hs with
  | nil => simp [setHeader, lookupHeader, List.find?]
  | cons p t ih =>
    by_cases h : p.1 = k
    · simp [setHeader, h, lookupHeader, List.find?]
    · simpa [setHeader, h, lookupHeader, List.find?] using ih

/-- C3: if at least one of the four required configuration values is
missing (unset or empty), `get_connection_credentials` fails with an
`AuthenticationError` whose message lists exactly the missing variable
names in their fixed order, and issues zero broker network calls — the
result does not depend on the broker outcome at all. -/
theorem fetch_credentials_missing_config (env : Env) (broker : ReqOutcome)
    (h : missing_vars env ≠ []) :
    get_connection_credentials env broker =
      ⟨.error (authErr ("Missing required environment variables: " ++
        String.intercalate ", " (missing_vars env))), 0⟩ ∧
    missing_vars env =
      (if envTruthy env.nango_connection_id then [] else ["NANGO_CONNECTION_ID"]) ++
      (if envTruthy env.nango_integration_id then [] else ["NANGO_INTEGRATION_ID"]) ++
      (if envTruthy env.nango_base_url then [] else ["NANGO_BASE_URL"]) ++
      (if envTruthy env.nango_secret_key then [] else ["NANGO_SECRET_KEY"]) := by
  constructor
  · have he : (missing_vars env).isEmpty = false := by
      cases hm : missing_vars env
      · exact absurd hm h
      · rfl
    simp [get_connection_credentials, he]
  · cases h1 : envTruthy env.nango_connection_id <;>
    cases h2 : envTruthy env.nango_integration_id <;>
    cases h3 : envTruthy env.nango_base_url <;>
    cases h4 : envTruthy env.nango_secret_key <;>
    simp [missing_vars, h1, h2, h3, h4]

theorem fetch_credentials_missing_config_witness :
    missing_vars ⟨none, some "gsheet", some "https://api.nango.dev", some "k"⟩ ≠ [] ∧
    get_connection_credentials ⟨none, some "gsheet", some "https://api.nango.dev", some "k"⟩
        .timeout =
      ⟨.error (authErr ("Missing required environment variables: " ++
        String.intercalate ", "
          (missing_vars ⟨none, some "gsheet", some "https://api.nango.dev", some "k"⟩))), 0⟩ :=
  ⟨by decide, (fetch_credentials_missing_config _ .timeout (by decide)).1⟩

/-- C4: the token cache contract. With a token in the slot, any number of
repeated `get_access_token` calls return it with zero provider
invocations; on a miss the provider is invoked once and the token is
extracted from `credentials.access_token`, stored, and returned; when
that field is absent, the call fails with `AuthenticationError`. -/
theorem token_cache_contract :
    (∀ (t : PyVal) (f : Nat → FetchResult) (n : Nat),
       repeatGetToken f (some t) 0 n = (List.replicate n (.ok t), some t, 0)) ∧
    (∀ (fetch : FetchResult) (body tok : PyVal),
       fetch.result = .ok body → tokenFieldLookup body = .ok (some tok) →
       tok.truthy = true →
       get_access_token none fetch = ⟨.ok tok, some tok, 1⟩) ∧
    (∀ (fetch : FetchResult) (body : PyVal),
       fetch.result = .ok body → tokenFieldLookup body = .ok none →
       get_access_token none fetch =
         ⟨.error (.api (authErr "No access token found in Nango credentials")), none, 1⟩) := by
  refine ⟨?_, ?_, ?_⟩
  · intro t f n
    induction n with
    | zero => rfl
    | succ m ih => simp [repeatGetToken, get_access_token, ih, List.replicate_succ]
  · intro fetch body tok hf hx ht
    simp [get_access_token, hf, hx, ht]
  · intro fetch body hf hx
    simp [get_access_token, hf, hx]

theorem token_cache_contract_witness :
    repeatGetToken (fun _ => ⟨.ok (.obj []), 1⟩) (some (.str "tok")) 0 3 =
      (List.replicate 3 (.ok (.str "tok")), some (.str "tok"), 0) ∧
    get_access_token none
        ⟨.ok (.obj [("credentials", .obj [("access_token", .str "abc")])]), 1⟩ =
      ⟨.ok (.str "abc"), some (.str "abc"), 1⟩ ∧
    get_access_token none ⟨.ok (.obj [("credentials", .obj [])]), 1⟩ =
      ⟨.error (.api (authErr "No access token found in Nango credentials")), none, 1⟩ :=
  ⟨token_cache_contract.1 (.str "tok") (fun _ => ⟨.ok (.obj []), 1⟩) 3,
   token_cache_contract.2.1 _ _ _ rfl rfl rfl,
   token_cache_contract.2.2 _ _ rfl rfl⟩

/-- C5: with the configuration complete, every broker outcome maps to an
`AuthenticationError`: 401 to an invalid-secret-key message, 404 to a
connection-not-found message, any other HTTPError status to a generic
broker-error message carrying the status and body, a timeout to a
timeout-specific message, and a connection-level failure to a
connect-failure message. -/
theorem fetch_credentials_broker_outcomes (env : Env)
    (hok : missing_vars env = []) :
    (∀ r : HttpResponse, r.status = 401 →
       get_connection_credentials env (.resp r) =
         ⟨.error (authErr "Invalid Nango secret key"), 1⟩) ∧
    (∀ r : HttpResponse, r.status = 404 →
       get_connection_credentials env (.resp r) =
         ⟨.error (authErr "Nango connection not found"), 1⟩) ∧
    (∀ r : HttpResponse, 400 ≤ r.status → r.status < 600 →
       r.status ≠ 401 → r.status ≠ 404 →
       get_connection_credentials env (.resp r) =
         ⟨.error (authErr ("Nango API error: " ++ toString r.status ++ " - " ++ r.text)), 1⟩) ∧
    (get_connection_credentials env .timeout =
       ⟨.error (authErr "Timeout while connecting to Nango authentication service"), 1⟩) ∧
    (get_connection_credentials env .connectionError =
       ⟨.error (authErr "Failed to connect to Nango authentication service"), 1⟩) := by
  have he : (missing_vars env).isEmpty = true := by rw [hok]; rfl
  refine ⟨?_, ?_, ?_, ?_, ?_⟩
  · intro r h
    simp [get_connection_credentials, he, h]
  · intro r h
    simp [get_connection_credentials, he, h]
  · intro r h1 h2 h3 h4
    simp [get_connection_credentials, he, h1, h2, h3, h4]
  · simp [get_connection_credentials, he]
  · simp [get_connection_credentials, he]

theorem fetch_credentials_broker_outcomes_witness :
    get_connection_credentials ⟨some "c", some "g", some "u", some "k"⟩
        (.resp ⟨401, "denied", none⟩) =
      ⟨.error (authErr "Invalid Nango secret key"), 1⟩ ∧
    get_connection_credentials ⟨some "c", some "g", some "u", some "k"⟩
        (.resp ⟨500, "boom", none⟩) =
      ⟨.error (authErr ("Nango API error: " ++ toString 500 ++ " - " ++ "boom")), 1⟩ ∧
    get_connection_credentials ⟨some "c", some "g", some "u", some "k"⟩ .timeout =
      ⟨.error (authErr "Timeout while connecting to Nango authentication service"), 1⟩ :=
  ⟨(fetch_credentials_broker_outcomes _ (by decide)).1 _ rfl,
   (fetch_credentials_broker_outcomes _ (by decide)).2.2.1 _ (by decide) (by decide)
     (by decide) (by decide),
   (fetch_credentials_broker_outcomes _ (by decide)).2.2.2.1⟩

theorem errorPayload_eq_specMessage (r : HttpResponse)
    (hc : r.json.isSome = true → r.text ≠ "") :
    (errorPayload r).1 = specErrorMessage r := by
  unfold errorPayload specErrorMessage
  match hj : r.json with
  | none => simp
  | some j =>
    have ht : r.text ≠ "" := hc (by rw [hj]; rfl)
    match j with
    | .null | .bool _ | .num _ | .str _ | .arr _ => simp [ht]
    | .obj fs =>
      match he : lookupField fs "error" with
      | none =>
        simp only [he]
        simp [lookupField, ht]
      | some (.obj efs) =>
        simp only [he, Option.getD_some]
        match hm : lookupField efs "message" with
        | none => simp [hm, ht]
        | some m => simp [hm]
      | some .null | some (.bool _) | some (.num _) | some (.str _) | some (.arr _) =>
        simp only [he]
        simp [ht]

/-- C2 counterexample: a 302 response is not a 2xx status and is none of
400/401/403/404/429, so under the claim it would have to raise the base
`APIError`; but `response.ok` is `status < 400`, so `_raise_for_status`
raises nothing, and `make_api_request` treats the response as a success
and returns its parsed body. -/
theorem raise_for_status_302_counterexample :
    ¬(200 ≤ (302 : Nat) ∧ (302 : Nat) < 300) ∧
    raise_for_status ⟨302, "redirect", none⟩ = none ∧
    (make_api_request ⟨"GET", "/v4/spreadsheets/s", [], none⟩ none true
        (some (.str "tok"))
        ⟨fun _ => ⟨.ok .null, 1⟩, fun _ => .resp ⟨302, "redirect", none⟩⟩).result =
      .ok (some (.obj [("content", .str "redirect")])) :=
  ⟨by decide, rfl, rfl⟩

/-- C2 amended: for every final response with status at least 400 (the
notion the code has of an unsuccessful response — statuses below 400, 3xx
included, raise nothing), `_raise_for_status` raises the variant the
taxonomy assigns to the status code, carrying the status code and a
message built from the `error.message` field of the payload when parseable,
falling back to the raw response text, then to a generic
HTTP-code message. -/
theorem raise_for_status_taxonomy (r : HttpResponse) (h4 : 400 ≤ r.status)
    (hc : r.json.isSome = true → r.text ≠ "") :
    ∃ e, raise_for_status r = some e ∧
      e.kind = specStatusKind r.status ∧
      e.status_code = some r.status ∧
      e.message = kindHead r.status ++ specErrorMessage r := by
  have hmsg := errorPayload_eq_specMessage r hc
  have hok : py_response_ok r.status = false := by
    simp [py_response_ok]
    omega
  unfold raise_for_status
  rw [hok]
  simp only [Bool.false_eq_true, if_false]
  by_cases e400 : r.status = 400
  · exact ⟨_, by rw [if_pos e400], by simp [specStatusKind, e400],
      rfl, by simp [kindHead, e400, hmsg]⟩
  · rw [if_neg e400]
    by_cases e401 : r.status = 401
    · exact ⟨_, by rw [if_pos e401], by simp [specStatusKind, e400, e401],
        rfl, by simp [kindHead, e400, e401, hmsg]⟩
    · rw [if_neg e401]
      by_cases e403 : r.status = 403
      · exact ⟨_, by rw [if_pos e403], by simp [specStatusKind, e400, e401, e403],
          rfl, by simp [kindHead, e400, e401, e403, hmsg]⟩
      · rw [if_neg e403]
        by_cases e404 : r.status = 404
        · exact ⟨_, by rw [if_pos e404], by simp [specStatusKind, e400, e401, e403, e404],
            rfl, by simp [kindHead, e400, e401, e403, e404, hmsg]⟩
        · rw [if_neg e404]
          by_cases e429 : r.status = 429
          · exact ⟨_, by rw [if_pos e429],
              by simp [specStatusKind, e400, e401, e403, e404, e429],
              rfl, by simp [kindHead, e400, e401, e403, e404, e429, hmsg]⟩
          · rw [if_neg e429]
            by_cases e5xx : 500 ≤ r.status ∧ r.status < 600
            · exact ⟨_, by rw [if_pos e5xx],
                by simp [specStatusKind, e400, e401, e403, e404, e429],
                rfl, by simp [kindHead, e400, e401, e403, e404, e429, e5xx, hmsg]⟩
            · exact ⟨_, by rw [if_neg e5xx],
                by simp [specStatusKind, e400, e401, e403, e404, e429],
                rfl, by simp [kindHead, e400, e401, e403, e404, e429, e5xx, hmsg]⟩

theorem raise_for_status_taxonomy_witness :
    ∃ e, raise_for_status
        ⟨404, "notfound", some (.obj [("error", .obj [("message", .str "Not found")])])⟩ =
        some e ∧
      e.kind = specStatusKind 404 ∧
      e.status_code = some 404 ∧
      e.message = kindHead 404 ++ specErrorMessage
        ⟨404, "notfound", some (.obj [("error", .obj [("message", .str "Not found")])])⟩ :=
  raise_for_status_taxonomy _ (by decide) (fun _ => by decide)

/-- C7: on a successful final HTTP response (status below 400, so no 401
retry and no status error), `make_api_request` returns the body parsed as
JSON when present and valid, wraps the raw text of a present-but-invalid body
under a `content` key, and returns `None` for an absent body. -/
theorem executor_success_body_parsing (args : RequestArgs) (t : PyVal)
    (w : World) (r : HttpResponse)
    (hh : w.http 0 = .resp r) (hs : r.status < 400) :
    (∀ j, r.json = some j → r.text ≠ "" →
       (make_api_request args none true (some t) w).result = .ok (some j)) ∧
    (r.json = none → r.text ≠ "" →
       (make_api_request args none true (some t) w).result =
         .ok (some (.obj [("content", .str r.text)]))) ∧
    (r.text = "" →
       (make_api_request args none true (some t) w).result = .ok none) := by
  have h401 : r.status ≠ 401 := by omega
  have hraise : raise_for_status r = none := by
    have hok : py_response_ok r.status = true := by
      simp only [py_response_ok, decide_eq_true_eq]
      omega
    simp [raise_for_status, hok]
  refine ⟨?_, ?_, ?_⟩
  · intro j hj htx
    simp [make_api_request, get_access_token, apiRequestCore, finishResponse,
      hh, h401, hraise, hj, htx]
  · intro hj htx
    simp [make_api_request, get_access_token, apiRequestCore, finishResponse,
      hh, h401, hraise, hj, htx]
  · intro htx
    simp [make_api_request, get_access_token, apiRequestCore, finishResponse,
      hh, h401, hraise, htx]

theorem executor_success_body_parsing_witness :
    (make_api_request ⟨"GET", "/v4/spreadsheets/s", [], none⟩ none true
        (some (.str "tok"))
        ⟨fun _ => ⟨.ok .null, 1⟩,
         fun _ => .resp ⟨200, "ok", some (.obj [("spreadsheetId", .str "s")])⟩⟩).result =
      .ok (some (.obj [("spreadsheetId", .str "s")])) ∧
    (make_api_request ⟨"GET", "/v4/spreadsheets/s", [], none⟩ none true
        (some (.str "tok"))
        ⟨fun _ => ⟨.ok .null, 1⟩, fun _ => .resp ⟨204, "", none⟩⟩).result = .ok none :=
  ⟨(executor_success_body_parsing _ _ _ _ rfl (by decide)).1 _ rfl (by decide),
   (executor_success_body_parsing _ _ _ _ rfl (by decide)).2.2 rfl⟩

/-- C1: with `retry_auth` on, a first 401 makes the executor invalidate
the cache, fetch a fresh token (exactly one provider call), reissue the
same request once with the refreshed `Authorization` header; a second 401
raises `AuthenticationError` carrying status 401, and exactly two
requests are issued in total. -/
theorem executor_second_401 (args : RequestArgs) (t0 body t2 : PyVal)
    (w : World) (r1 r2 : HttpResponse)
    (hh0 : w.http 0 = .resp r1) (h1 : r1.status = 401)
    (hf : (w.fetch 0).result = .ok body)
    (hx : tokenFieldLookup body = .ok (some t2))
    (ht : t2.truthy = true)
    (hh1 : w.http 1 = .resp r2) (h2 : r2.status = 401) :
    ∃ e, (make_api_request args none true (some t0) w).result = .error (.api e) ∧
      e.kind = .authentication ∧ e.status_code = some 401 ∧
      (make_api_request args none true (some t0) w).sent =
        [mkSent args [("Authorization", "Bearer " ++ pyStr t0),
                      ("Content-Type", "application/json")],
         mkSent args [("Authorization", "Bearer " ++ pyStr t2),
                      ("Content-Type", "application/json")]] ∧
      (make_api_request args none true (some t0) w).cache = some t2 ∧
      (make_api_request args none true (some t0) w).providerCalls = 1 := by
  have key : make_api_request args none true (some t0) w =
      ⟨.error (.api ⟨.authentication, "Authentication failed: " ++ (errorPayload r2).1,
          some 401, (errorPayload r2).2⟩), some t2, 1,
        [mkSent args [("Authorization", "Bearer " ++ pyStr t0),
                      ("Content-Type", "application/json")],
         mkSent args [("Authorization", "Bearer " ++ pyStr t2),
                      ("Content-Type", "application/json")]]⟩ := by
    simp [make_api_request, get_access_token, apiRequestCore, refresh_access_token,
      finishResponse, raise_for_status, py_response_ok, setHeader,
      hh0, hh1, hf, hx, ht, h1, h2]
  rw [key]
  exact ⟨_, rfl, rfl, rfl, rfl, rfl, rfl⟩

theorem executor_second_401_witness :
    ∃ e, (make_api_request ⟨"GET", "/v4/spreadsheets/s", [], none⟩ none true
        (some (.str "old"))
        ⟨fun _ => ⟨.ok (.obj [("credentials", .obj [("access_token", .str "new")])]), 1⟩,
         fun _ => .resp ⟨401, "denied", none⟩⟩).result = .error (.api e) ∧
      e.kind = .authentication ∧ e.status_code = some 401 ∧
      (make_api_request ⟨"GET", "/v4/spreadsheets/s", [], none⟩ none true
        (some (.str "old"))
        ⟨fun _ => ⟨.ok (.obj [("credentials", .obj [("access_token", .str "new")])]), 1⟩,
         fun _ => .resp ⟨401, "denied", none⟩⟩).sent =
        [mkSent ⟨"GET", "/v4/spreadsheets/s", [], none⟩
           [("Authorization", "Bearer " ++ pyStr (.str "old")),
            ("Content-Type", "application/json")],
         mkSent ⟨"GET", "/v4/spreadsheets/s", [], none⟩
           [("Authorization", "Bearer " ++ pyStr (.str "new")),
            ("Content-Type", "application/json")]] ∧
      (make_api_request ⟨"GET", "/v4/spreadsheets/s", [], none⟩ none true
        (some (.str "old"))
        ⟨fun _ => ⟨.ok (.obj [("credentials", .obj [("access_token", .str "new")])]), 1⟩,
         fun _ => .resp ⟨401, "denied", none⟩⟩).cache = some (.str "new") ∧
      (make_api_request ⟨"GET", "/v4/spreadsheets/s", [], none⟩ none true
        (some (.str "old"))
        ⟨fun _ => ⟨.ok (.obj [("credentials", .obj [("access_token", .str "new")])]), 1⟩,
         fun _ => .resp ⟨401, "denied", none⟩⟩).providerCalls = 1 :=
  executor_second_401 _ _ _ _ _ _ _ rfl rfl rfl rfl rfl rfl rfl

/-- C6: contrary to the stated property, a raw `TypeError` crosses the
operation boundary. When the target API answers a `spreadsheets_get` call
with a successful response whose body is empty, `make_api_request`
returns `None`, and `Spreadsheet(**None)` raises `TypeError` — not an
`APIError` variant. The same world drives `make_api_request` itself to a
well-formed `.ok` outcome, showing the failure is introduced at the
model construction of the wrapper. -/
theorem spreadsheets_get_empty_body_type_error :
    (make_api_request ⟨"GET", "/v4/spreadsheets/sheet1", [], none⟩ none true
        (some (.str "tok"))
        ⟨fun _ => ⟨.ok .null, 1⟩, fun _ => .resp ⟨200, "", none⟩⟩).result = .ok none ∧
    (spreadsheets_get "sheet1" (some (.str "tok"))
        ⟨fun _ => ⟨.ok .null, 1⟩, fun _ => .resp ⟨200, "", none⟩⟩).result =
      .error (.typeError "argument after ** must be a mapping") :=
  ⟨rfl, rfl⟩

/-- C8: each of the four local precondition checks of `values_update`
(empty `spreadsheet_id`, empty `range`, empty `values`, a
`value_input_option` other than RAW or USER_ENTERED) raises
`ValidationError` with the corresponding message before any network or
provider call is made, regardless of the world. -/
theorem values_update_local_validation :
    (∀ rng values vio md cache w,
       values_update "" rng values vio md cache w =
         ⟨.error (valErr "spreadsheet_id is required"), cache, 0, []⟩) ∧
    (∀ sid values vio md cache w, sid ≠ "" →
       values_update sid "" values vio md cache w =
         ⟨.error (valErr "range is required"), cache, 0, []⟩) ∧
    (∀ sid rng vio md cache w, sid ≠ "" → rng ≠ "" →
       values_update sid rng [] vio md cache w =
         ⟨.error (valErr "values is required"), cache, 0, []⟩) ∧
    (∀ sid rng values vio md cache w, sid ≠ "" → rng ≠ "" → values ≠ [] →
       vio ≠ "RAW" → vio ≠ "USER_ENTERED" →
       values_update sid rng values vio md cache w =
         ⟨.error (valErr "value_input_option must be \x27RAW\x27 or \x27USER_ENTERED\x27"),
          cache, 0, []⟩) := by
  refine ⟨?_, ?_, ?_, ?_⟩
  · intro rng values vio md cache w
    simp [values_update]
  · intro sid values vio md cache w h
    simp [values_update, h]
  · intro sid rng vio md cache w h1 h2
    simp [values_update, h1, h2]
  · intro sid rng values vio md cache w h1 h2 h3 h4 h5
    have hv : values.isEmpty = false := by
      cases values
      · exact absurd rfl h3
      · rfl
    simp [values_update, h1, h2, hv, h4, h5]

theorem values_update_local_validation_witness :
    values_update "" "A1:B2" [.arr [.str "a"]] "RAW" none (some (.str "tok"))
        ⟨fun _ => ⟨.ok .null, 1⟩, fun _ => .resp ⟨200, "", none⟩⟩ =
      ⟨.error (valErr "spreadsheet_id is required"), some (.str "tok"), 0, []⟩ ∧
    values_update "s" "A1:B2" [.arr [.str "a"]] "raw" none (some (.str "tok"))
        ⟨fun _ => ⟨.ok .null, 1⟩, fun _ => .resp ⟨200, "", none⟩⟩ =
      ⟨.error (valErr "value_input_option must be \x27RAW\x27 or \x27USER_ENTERED\x27"),
       some (.str "tok"), 0, []⟩ :=
  ⟨values_update_local_validation.1 _ _ _ _ _ _,
   values_update_local_validation.2.2.2 _ _ _ _ _ _ _ (by decide) (by decide)
     (by simp) (by decide) (by decide)⟩

/-- C9 counterexample: when the broker body carries an empty-string
`credentials.access_token`, `get_access_token` raises
`AuthenticationError` but stores the empty string in the cache slot; the
next call then returns that empty string with zero provider invocations
(even against a provider that would fail), refuting both the fresh-fetch
and the never-returned parts of the claim. -/
theorem token_cache_empty_string_counterexample :
    (get_access_token none
        ⟨.ok (.obj [("credentials", .obj [("access_token", .str "")])]), 1⟩).result =
      .error (.api (authErr "No access token found in Nango credentials")) ∧
    (get_access_token none
        ⟨.ok (.obj [("credentials", .obj [("access_token", .str "")])]), 1⟩).cache =
      some (.str "") ∧
    get_access_token
        (get_access_token none
          ⟨.ok (.obj [("credentials", .obj [("access_token", .str "")])]), 1⟩).cache
        ⟨.error (authErr "provider consulted"), 1⟩ =
      ⟨.ok (.str ""), some (.str ""), 0⟩ :=
  ⟨rfl, rfl, rfl⟩

/-- C9 amended: failure atomicity holds when the provider call fails, when
the extraction raises, or when the extracted `credentials.access_token`
is Python `None` — absent, or present as JSON null, which `.get` returns
as the stored `None` itself — the slot is left `None` and any next call
performs exactly one fresh provider fetch. But when the field holds the
empty string, the raising call stores it, and every subsequent call
returns the empty string with zero provider invocations. -/
theorem token_cache_failure_atomicity_amended :
    (∀ (fetch : FetchResult) (e : APIError), fetch.result = .error e →
       (get_access_token none fetch).cache = none) ∧
    (∀ (fetch : FetchResult) (body : PyVal) (pe : PyErr),
       fetch.result = .ok body → tokenFieldLookup body = .error pe →
       (get_access_token none fetch).cache = none) ∧
    (∀ (fetch : FetchResult) (body : PyVal),
       fetch.result = .ok body → tokenFieldLookup body = .ok none →
       (get_access_token none fetch).result =
         .error (.api (authErr "No access token found in Nango credentials")) ∧
       (get_access_token none fetch).cache = none) ∧
    (∀ fetch : FetchResult, (get_access_token none fetch).providerCalls = 1) ∧
    (∀ (fetch : FetchResult) (body : PyVal),
       fetch.result = .ok body → tokenFieldLookup body = .ok (some (.str "")) →
       (get_access_token none fetch).result =
         .error (.api (authErr "No access token found in Nango credentials")) ∧
       (get_access_token none fetch).cache = some (.str "") ∧
       (∀ fetch2 : FetchResult,
          get_access_token (some (.str "")) fetch2 =
            ⟨.ok (.str ""), some (.str ""), 0⟩)) := by
  refine ⟨?_, ?_, ?_, ?_, ?_⟩
  · intro fetch e hf
    simp [get_access_token, hf]
  · intro fetch body pe hf hx
    simp [get_access_token, hf, hx]
  · intro fetch body hf hx
    constructor <;> simp [get_access_token, hf, hx]
  · intro fetch
    cases hf : fetch.result with
    | error e => simp [get_access_token, hf]
    | ok body =>
      cases hx : tokenFieldLookup body with
      | error pe => simp [get_access_token, hf, hx]
      | ok v =>
        cases v with
        | none => simp [get_access_token, hf, hx]
        | some t =>
          cases ht : t.truthy <;> simp [get_access_token, hf, hx, ht]
  · intro fetch body hf hx
    refine ⟨?_, ?_, fun fetch2 => rfl⟩ <;>
      simp [get_access_token, hf, hx, PyVal.truthy]

theorem token_cache_failure_atomicity_amended_witness :
    (get_access_token none ⟨.error (authErr "boom"), 1⟩).cache = none ∧
    (get_access_token none ⟨.ok (.obj [("credentials", .obj [])]), 1⟩).cache = none ∧
    (get_access_token none
        ⟨.ok (.obj [("credentials", .obj [("access_token", .null)])]), 1⟩).cache = none ∧
    (get_access_token none ⟨.ok (.obj [("credentials", .obj [])]), 1⟩).providerCalls = 1 ∧
    (get_access_token none
        ⟨.ok (.obj [("credentials", .obj [("access_token", .str "")])]), 1⟩).cache =
      some (.str "") :=
  ⟨token_cache_failure_atomicity_amended.1 _ _ rfl,
   (token_cache_failure_atomicity_amended.2.2.1 _
     (.obj [("credentials", .obj [])]) rfl rfl).2,
   (token_cache_failure_atomicity_amended.2.2.1 _
     (.obj [("credentials", .obj [("access_token", .null)])]) rfl rfl).2,
   token_cache_failure_atomicity_amended.2.2.2.1 _,
   (token_cache_failure_atomicity_amended.2.2.2.2 _
     (.obj [("credentials", .obj [("access_token", .str "")])])
     rfl rfl).2.1⟩

/-- C10: `developer_metadata_get` with a non-empty spreadsheet id and
`metadata_id = 0` raises `ValidationError` saying metadata_id is
required — the truthiness test `if not metadata_id` treats 0 as missing —
with no provider call and no request issued, regardless of the world. -/
theorem developer_metadata_get_zero_id (sid : String) (h : sid ≠ "")
    (cache : Option PyVal) (w : World) :
    developer_metadata_get sid 0 cache w =
      ⟨.error (valErr "metadata_id is required"), cache, 0, []⟩ := by
  simp [developer_metadata_get, h]

theorem developer_metadata_get_zero_id_witness :
    developer_metadata_get "sheet1" 0 (some (.str "tok"))
        ⟨fun _ => ⟨.ok .null, 1⟩, fun _ => .resp ⟨200, "", none⟩⟩ =
      ⟨.error (valErr "metadata_id is required"), some (.str "tok"), 0, []⟩ :=
  developer_metadata_get_zero_id "sheet1" (by decide) _ _

end GSheets
